import Mathlib

/-!
Shallow embedding of the comment/reaction subsystem of the "Christian Vent"
bot (`src/bot.py`): the database rows created by `init_db`, the data-access
helpers (`db_execute`, `db_fetch_one`, `db_fetch_all`), the reaction toggle
branch and the comment-deletion branch of `button_handler`, the reply state
machine (`replytoreply_` callback plus the comment branch of
`handle_message`), the comment page renderer (`show_comments_page`,
`send_reply_message`, `show_more_replies`) and the recursive comment counter
`count_all_comments`.  Machine rows are modelled as Lean structures, tables
as lists of rows, SQL queries as filters/sorts over those lists, and the
outbound Telegram sends as an explicit event list.
-/

namespace TestBot

/-- Row of the `posts` table (`init_db`, src/bot.py lines 81-96). -/
structure Post where
  post_id : Nat
  content : String
  author_id : String
  category : String
  channel_message_id : Option Nat
  timestamp : Nat
  media_type : String
  media_id : Option String
  comment_count : Nat
  approved : Bool
deriving DecidableEq

/-- Row of the `comments` table (`init_db`, src/bot.py lines 98-109).
`parent_comment_id = 0` marks a top-level comment. -/
structure Comment where
  comment_id : Nat
  post_id : Nat
  parent_comment_id : Nat
  author_id : String
  content : String
  ctype : String
  file_id : Option String
  timestamp : Nat
deriving DecidableEq

/-- Row of the `reactions` table (`init_db`, src/bot.py lines 111-119);
the table carries `UNIQUE(comment_id, user_id)`. -/
structure Reaction where
  reaction_id : Nat
  comment_id : Nat
  user_id : String
  rtype : String
deriving DecidableEq

/-- Row of the `users` table, restricted to the columns driving the
comment input-state machine. -/
structure UserRow where
  user_id : String
  waiting_for_post : Bool
  waiting_for_comment : Bool
  comment_post_id : Option Nat
  comment_idx : Option Nat
deriving DecidableEq

/-- The database state touched by the comment subsystem. -/
structure DB where
  posts : List Post
  comments : List Comment
  reactions : List Reaction
deriving DecidableEq

/-! ### Data-access helpers: `db_execute`, `db_fetch_one`, `db_fetch_all`
(src/bot.py lines 388-417).  A query execution either yields rows or raises;
`db_execute` catches every exception, logs, rolls back and returns `None`.
We model the underlying cursor outcome explicitly and the helper as a total
function returning `Option`, together with the list of connection events it
performs. -/

/-- Outcome of `cur.execute` + fetch on the database connection: either the
result rows, or a raised database error. -/
inductive QueryOutcome (α : Type) where
  | ok (rows : List α)
  | err (msg : String)
deriving DecidableEq

/-- Non-row result of `db_execute` when neither `fetch` nor `fetchone` is
set (`True` in the Python), or the fetched rows. -/
inductive DbRes (α : Type) where
  | all (rows : List α)
  | one (row : Option α)
  | done
deriving DecidableEq

/-- Connection-level events performed by `db_execute`. -/
inductive ConnEvent where
  | getconn
  | execute
  | commit
  | rollback
  | logError (msg : String)
  | putconn
deriving DecidableEq

/-- `db_execute(query, params, fetch, fetchone)`: on success commits and
returns the fetched result (`fetchall` list, `fetchone` first-row-or-none,
or plain success); on a database error logs, rolls back and returns the
sentinel `none`.  No branch re-raises. -/
def db_execute (outcome : QueryOutcome α) (fetch fetchone : Bool) :
    Option (DbRes α) :=
  match outcome with
  | .ok rows =>
      if fetch then some (.all rows)
      else if fetchone then some (.one rows.head?)
      else some .done
  | .err _ => none

/-- The connection events `db_execute` performs, in order. -/
def db_execute_trace (outcome : QueryOutcome α) : List ConnEvent :=
  match outcome with
  | .ok _ => [.getconn, .execute, .commit, .putconn]
  | .err m => [.getconn, .execute, .logError m, .rollback, .putconn]

/-- `db_fetch_one`: Python returns the row object or `None`, where `None`
stands both for "no row" and for "query failed". -/
def db_fetch_one (outcome : QueryOutcome α) : Option α :=
  match db_execute outcome false true with
  | some (.one r) => r
  | _ => none

/-- `db_fetch_all`: the row list on success, `None` on a database error. -/
def db_fetch_all (outcome : QueryOutcome α) : Option (List α) :=
  match db_execute outcome true false with
  | some (.all rs) => some rs
  | _ => none

/-! ### Reaction toggling (`button_handler`, src/bot.py lines 3817-3847).
The handler looks up the acting user's existing reaction on the comment;
same type deletes the row, different type updates it in place, no row
inserts a fresh one. -/

/-- `SELECT type FROM reactions WHERE comment_id = %s AND user_id = %s`
via `fetchone`: first matching row. -/
def findReaction (rs : List Reaction) (cid : Nat) (uid : String) :
    Option Reaction :=
  rs.find? (fun r => r.comment_id == cid && r.user_id == uid)

/-- `DELETE FROM reactions WHERE comment_id = %s AND user_id = %s`. -/
def deleteReactionRows (rs : List Reaction) (cid : Nat) (uid : String) :
    List Reaction :=
  rs.filter (fun x => !(x.comment_id == cid && x.user_id == uid))

/-- `UPDATE reactions SET type = %s WHERE comment_id = %s AND user_id = %s`. -/
def updateReactionRows (rs : List Reaction) (cid : Nat) (uid : String)
    (rtype : String) : List Reaction :=
  rs.map (fun x =>
    if x.comment_id == cid && x.user_id == uid then { x with rtype := rtype }
    else x)

/-- `INSERT INTO reactions (comment_id, user_id, type) VALUES (...)`;
`fresh` is the serial id the new row obtains. -/
def insertReactionRow (rs : List Reaction) (cid : Nat) (uid : String)
    (rtype : String) (fresh : Nat) : List Reaction :=
  rs ++ [{ reaction_id := fresh, comment_id := cid, user_id := uid,
           rtype := rtype }]

/-- One press of a like/dislike button: the reaction branch of
`button_handler` (same type deletes the row, different type updates it,
no existing row inserts a fresh one). -/
def applyReaction (db : DB) (cid : Nat) (uid : String) (rtype : String)
    (fresh : Nat) : DB :=
  match findReaction db.reactions cid uid with
  | some r =>
      if r.rtype == rtype then
        { db with reactions := deleteReactionRows db.reactions cid uid }
      else
        { db with reactions := updateReactionRows db.reactions cid uid rtype }
  | none =>
      { db with reactions := insertReactionRow db.reactions cid uid rtype fresh }

/-- `SELECT COUNT(*) FROM reactions WHERE comment_id = %s AND type = %s`. -/
def reactionCount (rs : List Reaction) (cid : Nat) (t : String) : Nat :=
  (rs.filter (fun r => r.comment_id == cid && r.rtype == t)).length

/-- The `UNIQUE(comment_id, user_id)` table constraint: no two rows share
the `(comment_id, user_id)` pair. -/
def atMostOnePerPair (rs : List Reaction) : Prop :=
  rs.Pairwise (fun a b => ¬(a.comment_id = b.comment_id ∧ a.user_id = b.user_id))

/-! ### Replying to a reply (`button_handler` `replytoreply_` branch,
src/bot.py lines 4155-4165, and the `waiting_for_comment` branch of
`handle_message`, lines 4900-4948). -/

/-- The `replytoreply_{post}_{parent}_{tapped}` callback: stores the post id
and the id of the exact comment the user tapped (`parts[3]`) in the user
row; `parts[2]`, the immediate parent, is parsed but not stored. -/
def replytoreplyCallback (u : UserRow) (post_id _parent_id tapped_id : Nat) :
    UserRow :=
  { u with waiting_for_comment := true, comment_post_id := some post_id,
           comment_idx := some tapped_id }

/-- The `reply_{post}_{comment}` callback on a top-level comment. -/
def replyCallback (u : UserRow) (post_id comment_id : Nat) : UserRow :=
  { u with waiting_for_comment := true, comment_post_id := some post_id,
           comment_idx := some comment_id }

/-- `parent_comment_id = 0; if user['comment_idx']: parent_comment_id =
int(user['comment_idx'])` — `None` (and a falsy `0`) both give `0`. -/
def insertedParentId (u : UserRow) : Nat := u.comment_idx.getD 0

/-- The comment branch of `handle_message`: fires only when the user is in
the `waiting_for_comment` state (the `waiting_for_post` branch is checked
first), inserting a new `comments` row whose `parent_comment_id` comes from
the stored `comment_idx`.  `new_id` is the serial id of the inserted row,
`ts` its timestamp.  The `comment_post_id` column is always populated by the
reply callbacks before this branch runs, so the unset case is not modelled
beyond a default of `0`. -/
def handleCommentMessage (db : DB) (u : UserRow) (content ctype : String)
    (file_id : Option String) (new_id ts : Nat) : Option (DB × Comment) :=
  if u.waiting_for_post then none
  else if u.waiting_for_comment then
    let c : Comment :=
      { comment_id := new_id, post_id := u.comment_post_id.getD 0,
        parent_comment_id := insertedParentId u, author_id := u.user_id,
        content := content, ctype := ctype, file_id := file_id,
        timestamp := ts }
    some ({ db with comments := db.comments ++ [c] }, c)
  else none

/-! ### Queries of the comment page renderer (`show_comments_page`,
src/bot.py lines 2844-2993). -/

/-- `ORDER BY timestamp ASC`. -/
def byTime (a b : Comment) : Prop := a.timestamp ≤ b.timestamp

instance : DecidableRel byTime := fun a b => Nat.decLe a.timestamp b.timestamp

instance : IsTotal Comment byTime := ⟨fun a b => Nat.le_total a.timestamp b.timestamp⟩

instance : IsTrans Comment byTime := ⟨fun _ _ _ h h' => Nat.le_trans h h'⟩

/-- Stable ascending sort by creation time, modelling `ORDER BY timestamp
ASC` on a result set. -/
def sortByTime (l : List Comment) : List Comment := l.insertionSort byTime

/-- `SELECT * FROM posts WHERE post_id = %s` via `fetchone`. -/
def findPost (db : DB) (pid : Nat) : Option Post :=
  db.posts.find? (fun p => p.post_id == pid)

/-- The `WHERE post_id = %s AND parent_comment_id = 0` filter shared by the
page query and the count query. -/
def topLevelFilter (db : DB) (pid : Nat) : List Comment :=
  db.comments.filter (fun c => c.post_id == pid && c.parent_comment_id == 0)

/-- The post's top-level comments in ascending creation-time order. -/
def topLevelComments (db : DB) (pid : Nat) : List Comment :=
  sortByTime (topLevelFilter db pid)

/-- `SELECT COUNT(*) FROM comments WHERE post_id = %s AND
parent_comment_id = 0`. -/
def countTopLevel (db : DB) (pid : Nat) : Nat := (topLevelFilter db pid).length

/-- `total_pages = (total_comments + per_page - 1) // per_page` with
`per_page = 5`. -/
def totalPages (db : DB) (pid : Nat) : Nat := (countTopLevel db pid + 5 - 1) / 5

/-- The page query: `ORDER BY timestamp ASC LIMIT 5 OFFSET (page-1)*5`. -/
def pageComments (db : DB) (pid page : Nat) : List Comment :=
  ((topLevelComments db pid).drop ((page - 1) * 5)).take 5

/-- `SELECT * FROM comments WHERE parent_comment_id = %s` (note: no
`post_id` filter). -/
def repliesFilter (db : DB) (cid : Nat) : List Comment :=
  db.comments.filter (fun c => c.parent_comment_id == cid)

/-- The replies of a comment in ascending creation-time order. -/
def repliesSorted (db : DB) (cid : Nat) : List Comment :=
  sortByTime (repliesFilter db cid)

/-- `SELECT COUNT(*) FROM comments WHERE parent_comment_id = %s`. -/
def totalRepliesOf (db : DB) (cid : Nat) : Nat := (repliesFilter db cid).length

/-! ### The renderer's outbound messages.  Each send allocates the next
Telegram message id; a comment send carries the id of the message it is
threaded under (`reply_to_message_id`). -/

/-- One outbound message of the comment renderer. -/
inductive Sent where
  | postNotFound
  | noCommentsYet
  | commentMsg (c : Comment) (msg_id : Nat) (reply_to : Option Nat)
  | showMoreBtn (cid : Nat) (remaining : Nat) (reply_to : Option Nat)
  | pageControl (page : Nat) (total : Nat) (hasOlder hasNewer : Bool)
deriving DecidableEq

/-- The body of the per-top-level-comment loop of `show_comments_page`
(lines 2922-2977): send the comment (allocating message id `n`), send its
first 3 replies (`LIMIT 3`, ascending) threaded under that message, and a
"Show more replies" button when further replies exist.  Returns the events
and the next free message id. -/
def renderTopComment (db : DB) (c : Comment) (n : Nat) : List Sent × Nat :=
  let reps := (repliesSorted db c.comment_id).take 3
  let replyEvents :=
    reps.enum.map (fun p => Sent.commentMsg p.2 (n + 1 + p.1) (some n))
  let total := totalRepliesOf db c.comment_id
  let more :=
    if 3 < total then [Sent.showMoreBtn c.comment_id (total - 3) (some n)]
    else []
  (Sent.commentMsg c n none :: replyEvents ++ more,
   n + 1 + reps.length + more.length)

/-- `show_comments_page(post_id, page)`: resolve the post (not-found aborts),
page the top-level comments, short-circuit the empty first page, render each
top-level comment with its limited replies, and append the pagination
control when other pages exist.  `n` is the next free message id. -/
def showCommentsPage (db : DB) (pid page n : Nat) : List Sent :=
  match findPost db pid with
  | none => [Sent.postNotFound]
  | some _ =>
    let cs := pageComments db pid page
    if cs.isEmpty && page == 1 then [Sent.noCommentsYet]
    else
      let tp := totalPages db pid
      let body := (cs.foldl
        (fun acc c =>
          let r := renderTopComment db c acc.2
          (acc.1 ++ r.1, r.2)) ([], n)).1
      let hasOlder := decide (1 < page)
      let hasNewer := decide (page < tp)
      body ++
        (if hasOlder || hasNewer then
          [Sent.pageControl page tp hasOlder hasNewer]
        else [])

/-- `show_more_replies(comment_id, page)` (src/bot.py lines 3021-3080):
pages the remaining replies of one comment, 5 per page, threading them under
the original comment's message (`parentMsg`). -/
def showMoreRepliesPage (db : DB) (cid page n parentMsg : Nat) : List Sent :=
  match db.comments.find? (fun c => c.comment_id == cid) with
  | none => []
  | some _ =>
    let reps := ((repliesSorted db cid).drop ((page - 1) * 5)).take 5
    let total := totalRepliesOf db cid
    let tp := (total + 5 - 1) / 5
    reps.enum.map (fun p => Sent.commentMsg p.2 (n + p.1) (some parentMsg)) ++
      (if page < tp then
        [Sent.showMoreBtn cid (total - page * 5) (some parentMsg)]
      else [])

/-- The comment rows carried by the reply messages of an event list (the
sends threaded under some earlier message). -/
def renderedReplies (evs : List Sent) : List Comment :=
  evs.filterMap (fun e => match e with
    | .commentMsg r _ (some _) => some r
    | _ => none)

/-! ### Counting every comment of a post (`count_all_comments`,
src/bot.py lines 796-814).  The Python traversal recurses through
`parent_comment_id` links with no depth bound; we give the recursion an
explicit fuel and fix it at `|comments| + 1`, which the C10 theorem shows is
saturating on acyclic data. -/

/-- The recursive query `SELECT comment_id FROM comments WHERE
parent_comment_id = %s` of `count_replies`. -/
def childrenOf (cs : List Comment) (pid : Nat) : List Comment :=
  cs.filter (fun c => c.parent_comment_id == pid)

/-- `count_replies(parent_id)` for a non-`None` parent: the number of
children plus the recursive counts below each child. -/
def countRepliesFuel (cs : List Comment) : Nat → Nat → Nat
  | 0, _ => 0
  | fuel + 1, parent =>
    let kids := childrenOf cs parent
    kids.foldl (fun total c => total + countRepliesFuel cs fuel c.comment_id)
      kids.length

/-- `count_all_comments(post_id)` with explicit fuel for the nested
recursion: the top call counts the post's top-level comments and recurses
into each. -/
def countAllFuel (fuel : Nat) (db : DB) (pid : Nat) : Nat :=
  let top := topLevelFilter db pid
  top.foldl (fun total c => total + countRepliesFuel db.comments fuel c.comment_id)
    top.length

/-- `count_all_comments(post_id)`. -/
def count_all_comments (db : DB) (pid : Nat) : Nat :=
  countAllFuel db.comments.length db pid

/-! Forest certificates for the acyclicity hypothesis of C10: a
`CForest` whose nodes are `comments` rows witnesses that the
`parent_comment_id` relation restricted to a post is a finite acyclic
forest.  `wfForest` checks, node by node, that the children query of
`count_replies` returns exactly the node's children. -/

mutual

inductive CTree : Type where
  | node : Comment → CForest → CTree

inductive CForest : Type where
  | nil : CForest
  | cons : CTree → CForest → CForest

end

/-- The root comment of a tree. -/
def rootOf : CTree → Comment
  | .node c _ => c

/-- The child forest of a tree's root. -/
def childrenForest : CTree → CForest
  | .node _ ts => ts

/-- The root comments of a forest, in order. -/
def forestRoots : CForest → List Comment
  | .nil => []
  | .cons (.node c _) ts => c :: forestRoots ts

mutual

/-- All comments of a tree, preorder. -/
def treeComments : CTree → List Comment
  | .node c ts => c :: forestComments ts

/-- All comments of a forest, preorder. -/
def forestComments : CForest → List Comment
  | .nil => []
  | .cons t ts => treeComments t ++ forestComments ts

end

mutual

/-- Height of a tree (a single node has height 1). -/
def treeHeight : CTree → Nat
  | .node _ ts => forestHeight ts + 1

/-- Height of a forest. -/
def forestHeight : CForest → Nat
  | .nil => 0
  | .cons t ts => max (treeHeight t) (forestHeight ts)

end

mutual

/-- The tree matches the database: the children query at its root returns
exactly the roots of its child forest, recursively. -/
def wfTree (cs : List Comment) : CTree → Bool
  | .node c ts => (childrenOf cs c.comment_id == forestRoots ts) && wfForest cs ts

/-- All trees of the forest match the database. -/
def wfForest (cs : List Comment) : CForest → Bool
  | .nil => true
  | .cons t ts => wfTree cs t && wfForest cs ts

end

/-- Sum over the forest's trees of the number of strict descendants of each
root. -/
def subtreeSizes : CForest → Nat
  | .nil => 0
  | .cons (.node _ cts) ts => (forestComments cts).length + subtreeSizes ts

/-! ### Deleting a comment (`button_handler` `delete_comment_` branch,
src/bot.py lines 3990-4006). -/

/-- `update_channel_post_comment_count` (src/bot.py lines 848-877): when
the post exists and has a channel message, recount its comments and
`UPDATE posts SET comment_count = %s WHERE post_id = %s`. -/
def updateChannelCommentCount (db : DB) (pid : Nat) : DB :=
  match findPost db pid with
  | none => db
  | some p =>
    match p.channel_message_id with
    | none => db
    | some _ =>
      let t := count_all_comments db pid
      let ps := db.posts.map
        (fun q => if q.post_id == pid then { q with comment_count := t } else q)
      { db with posts := ps }

/-- The two `DELETE` statements of the branch:
`DELETE FROM reactions WHERE comment_id = %s` then
`DELETE FROM comments WHERE comment_id = %s`. -/
def deleteCommentRows (db : DB) (cid : Nat) : DB :=
  { posts := db.posts,
    comments := db.comments.filter (fun x => !(x.comment_id == cid)),
    reactions := db.reactions.filter (fun r => !(r.comment_id == cid)) }

/-- The `delete_comment_` branch: only the author may delete; deletion
removes the comment's reactions and the comment row, then refreshes the
owning post's stored comment count. -/
def deleteComment (db : DB) (cid : Nat) (uid : String) : DB :=
  match db.comments.find? (fun c => c.comment_id == cid) with
  | none => db
  | some c =>
    if c.author_id == uid then
      updateChannelCommentCount (deleteCommentRows db cid) c.post_id
    else db

/-! ### Concrete rows used to evaluate the model on small inputs. -/

/-- A text comment row with the given ids and timestamp. -/
def mkC (id pid parent ts : Nat) : Comment :=
  { comment_id := id, post_id := pid, parent_comment_id := parent,
    author_id := "a" ++ toString id, content := "c" ++ toString id,
    ctype := "text", file_id := none, timestamp := ts }

/-- A post row with the given id, approval flag and channel message. -/
def mkP (pid : Nat) (approved : Bool) (chan : Option Nat) (cc : Nat) : Post :=
  { post_id := pid, content := "p", author_id := "op", category := "general",
    channel_message_id := chan, timestamp := 0, media_type := "text",
    media_id := none, comment_count := cc, approved := approved }

/-- Scenario of C2: post 1 with top-level comment A (id 1), reply B (id 2,
parent 1) and reply-to-reply C (id 3, parent 2). -/
def dbABC : DB :=
  { posts := [mkP 1 true (some 50) 3],
    comments := [mkC 1 1 0 10, mkC 2 1 1 20, mkC 3 1 2 30],
    reactions := [] }

/-- Scenario of C3: post 1 with top-level comment A (id 1) and four direct
replies (ids 2-5). -/
def dbFourReplies : DB :=
  { posts := [mkP 1 true (some 50) 5],
    comments := [mkC 1 1 0 10, mkC 2 1 1 20, mkC 3 1 1 30, mkC 4 1 1 40,
                 mkC 5 1 1 50],
    reactions := [] }

/-- Scenario of C4: post 1 with seven top-level comments. -/
def dbSeven : DB :=
  { posts := [mkP 1 true (some 50) 7],
    comments := [mkC 1 1 0 10, mkC 2 1 0 20, mkC 3 1 0 30, mkC 4 1 0 40,
                 mkC 5 1 0 50, mkC 6 1 0 60, mkC 7 1 0 70],
    reactions := [] }

/-- Scenario of C6: post 1 with no comments at all. -/
def dbEmpty : DB :=
  { posts := [mkP 1 true (some 50) 0], comments := [], reactions := [] }

/-- Scenario of C7: an existing but *unapproved* post 1 carrying one
comment. -/
def dbUnapproved : DB :=
  { posts := [mkP 1 false none 1],
    comments := [mkC 1 1 0 10],
    reactions := [] }

/-- Scenario of C8: post 1 (broadcast to the channel, stored comment count
2) with comment A (id 1, author "a1") and its child reply B (id 2), plus a
reaction on each. -/
def dbDelete : DB :=
  { posts := [mkP 1 true (some 50) 2],
    comments := [mkC 1 1 0 10, mkC 2 1 1 20],
    reactions := [{ reaction_id := 1, comment_id := 1, user_id := "u9",
                    rtype := "like" },
                  { reaction_id := 2, comment_id := 2, user_id := "u9",
                    rtype := "like" }] }

/-- Scenario of C10: post 1 with a reply chain of depth 4 (1 ← 2 ← 3 ← 4)
and a second top-level comment 5. -/
def dbDeep : DB :=
  { posts := [mkP 1 true (some 50) 5],
    comments := [mkC 1 1 0 10, mkC 2 1 1 20, mkC 3 1 2 30, mkC 4 1 3 40,
                 mkC 5 1 0 50],
    reactions := [] }

/-- The forest certificate for `dbDeep`: the chain under comment 1, then
the isolated comment 5. -/
def forestDeep : CForest :=
  .cons (.node (mkC 1 1 0 10)
          (.cons (.node (mkC 2 1 1 20)
                   (.cons (.node (mkC 3 1 2 30)
                            (.cons (.node (mkC 4 1 3 40) .nil) .nil))
                     .nil))
            .nil))
    (.cons (.node (mkC 5 1 0 50) .nil) .nil)

/-! ## Theorems -/

/-- C9: a database error inside a data-access helper never propagates: the
helper performs a rollback (after logging), returns the sentinel `none` for
every fetch mode, and the `db_fetch_one` result of a failed query is
literally the same value as that of a successful query returning no rows. -/
theorem C9_db_error_returns_sentinel {α : Type} (m : String) (f1 f2 : Bool) :
    db_execute (.err m : QueryOutcome α) f1 f2 = none
    ∧ db_execute_trace (.err m : QueryOutcome α) =
        [.getconn, .execute, .logError m, .rollback, .putconn]
    ∧ db_fetch_one (.err m : QueryOutcome α) = none
    ∧ db_fetch_all (.err m : QueryOutcome α) = none
    ∧ db_fetch_one (.err m : QueryOutcome α) = db_fetch_one (.ok [] : QueryOutcome α) :=
  ⟨rfl, rfl, rfl, rfl, rfl⟩

/-- Unfolding of the `fetchone` lookup underlying `findReaction`. -/
theorem findReaction_none_iff (rs : List Reaction) (cid : Nat) (uid : String) :
    findReaction rs cid uid = none ↔
      ∀ r ∈ rs, ¬(r.comment_id = cid ∧ r.user_id = uid) := by
  unfold findReaction
  rw [List.find?_eq_none]
  constructor
  · intro h r hr
    have := h r hr
    simp only [Bool.and_eq_true, beq_iff_eq] at this
    tauto
  · intro h r hr
    have := h r hr
    simp only [Bool.and_eq_true, beq_iff_eq]
    tauto

/-- Deleting the reaction rows of a pair that has none is a no-op. -/
theorem deleteReactionRows_of_none (rs : List Reaction) (cid : Nat)
    (uid : String) (h : findReaction rs cid uid = none) :
    deleteReactionRows rs cid uid = rs := by
  unfold deleteReactionRows
  refine List.filter_eq_self.mpr ?_
  intro r hr
  have := (findReaction_none_iff rs cid uid).mp h r hr
  simp only [Bool.not_eq_eq_eq_not, Bool.not_true, Bool.and_eq_false_iff]
  by_cases h1 : r.comment_id = cid
  · by_cases h2 : r.user_id = uid
    · exact absurd ⟨h1, h2⟩ this
    · right; simpa using h2
  · left; simpa using h1

/-- Updating the reaction rows of a pair that has none is a no-op. -/
theorem updateReactionRows_of_none (rs : List Reaction) (cid : Nat)
    (uid t : String) (h : findReaction rs cid uid = none) :
    updateReactionRows rs cid uid t = rs := by
  unfold updateReactionRows
  conv_rhs => rw [← List.map_id rs]
  refine List.map_congr_left ?_
  intro r hr
  have := (findReaction_none_iff rs cid uid).mp h r hr
  have hb : (r.comment_id == cid && r.user_id == uid) = false := by
    simp only [Bool.and_eq_false_iff]
    by_cases h1 : r.comment_id = cid
    · by_cases h2 : r.user_id = uid
      · exact absurd ⟨h1, h2⟩ this
      · right; simpa using h2
    · left; simpa using h1
  simp [hb]

/-- Branch equation: no existing reaction inserts a fresh row. -/
theorem applyReaction_insert (db : DB) (cid : Nat) (uid t : String) (f : Nat)
    (h0 : findReaction db.reactions cid uid = none) :
    applyReaction db cid uid t f =
      { db with reactions := insertReactionRow db.reactions cid uid t f } := by
  unfold applyReaction
  simp only [h0]

/-- Branch equation: pressing the reaction already stored deletes it. -/
theorem applyReaction_delete (db : DB) (cid : Nat) (uid t : String) (f : Nat)
    (r : Reaction) (hf : findReaction db.reactions cid uid = some r)
    (ht : (r.rtype == t) = true) :
    applyReaction db cid uid t f =
      { db with reactions := deleteReactionRows db.reactions cid uid } := by
  unfold applyReaction
  simp only [hf, ht, if_true]

/-- Branch equation: pressing the other reaction updates the row in place. -/
theorem applyReaction_update (db : DB) (cid : Nat) (uid t : String) (f : Nat)
    (r : Reaction) (hf : findReaction db.reactions cid uid = some r)
    (ht : (r.rtype == t) = false) :
    applyReaction db cid uid t f =
      { db with reactions := updateReactionRows db.reactions cid uid t } := by
  unfold applyReaction
  simp only [hf, ht, Bool.false_eq_true, if_false]

/-- Whichever branch the reaction press takes, the `(comment_id, user_id)`
key of every surviving row is unchanged, so the `UNIQUE(comment_id,
user_id)` shape of the table is preserved. -/
theorem atMostOne_applyReaction (db : DB) (cid : Nat) (uid t : String)
    (f : Nat) (hu : atMostOnePerPair db.reactions) :
    atMostOnePerPair (applyReaction db cid uid t f).reactions := by
  cases hfind : findReaction db.reactions cid uid with
  | none =>
    rw [applyReaction_insert db cid uid t f hfind]
    unfold insertReactionRow atMostOnePerPair
    rw [List.pairwise_append]
    refine ⟨hu, by simp, ?_⟩
    intro a ha b hb
    simp only [List.mem_singleton] at hb
    subst hb
    have := (findReaction_none_iff db.reactions cid uid).mp hfind a ha
    simpa using this
  | some r =>
    by_cases ht : (r.rtype == t) = true
    · rw [applyReaction_delete db cid uid t f r hfind ht]
      unfold deleteReactionRows atMostOnePerPair
      exact List.Pairwise.sublist (List.filter_sublist _) hu
    · rw [applyReaction_update db cid uid t f r hfind (by simpa using ht)]
      unfold atMostOnePerPair updateReactionRows
      rw [List.pairwise_map]
      refine hu.imp ?_
      intro a b hab
      by_cases h1 : (a.comment_id == cid && a.user_id == uid) = true
        <;> by_cases h2 : (b.comment_id == cid && b.user_id == uid) = true
        <;> simp only [h1, h2, if_true, if_false, Bool.false_eq_true]
        <;> simpa using hab

/-- After inserting the fresh row for a pair that had none, the lookup
finds exactly that row. -/
theorem findReaction_after_insert (db : DB) (cid : Nat) (uid t : String)
    (f1 : Nat) (h0 : findReaction db.reactions cid uid = none) :
    findReaction (insertReactionRow db.reactions cid uid t f1) cid uid =
      some { reaction_id := f1, comment_id := cid, user_id := uid, rtype := t } := by
  unfold findReaction at h0 ⊢
  unfold insertReactionRow
  rw [List.find?_append, h0]
  simp

/-- C5: starting from a state where the acting user has no reaction on the
comment (the fresh-toggle scenario of the spec) and the uniqueness
constraint holds: pressing the same reaction twice restores the reaction
table exactly (hence every reaction count); pressing "like" then "dislike"
leaves a single new row whose type was updated in place, with no duplicate;
and after each press the table still has at most one row per
`(comment_id, user_id)` pair. -/
theorem C5_reaction_toggle_idempotent (db : DB) (cid : Nat) (uid : String)
    (h0 : findReaction db.reactions cid uid = none)
    (hu : atMostOnePerPair db.reactions) :
    (∀ t f1 f2,
      (applyReaction (applyReaction db cid uid t f1) cid uid t f2).reactions
        = db.reactions)
    ∧ (∀ t f1 f2 s,
      reactionCount
          (applyReaction (applyReaction db cid uid t f1) cid uid t f2).reactions
          cid s
        = reactionCount db.reactions cid s)
    ∧ (∀ f1 f2,
      (applyReaction (applyReaction db cid uid "like" f1) cid uid "dislike" f2).reactions
        = db.reactions ++
            [{ reaction_id := f1, comment_id := cid, user_id := uid,
               rtype := "dislike" }])
    ∧ (∀ t f1, atMostOnePerPair (applyReaction db cid uid t f1).reactions)
    ∧ (∀ t1 t2 f1 f2,
      atMostOnePerPair
        (applyReaction (applyReaction db cid uid t1 f1) cid uid t2 f2).reactions) := by
  have hdel : deleteReactionRows db.reactions cid uid = db.reactions :=
    deleteReactionRows_of_none db.reactions cid uid h0
  have c1 : ∀ t f1 f2,
      (applyReaction (applyReaction db cid uid t f1) cid uid t f2).reactions
        = db.reactions := by
    intro t f1 f2
    rw [applyReaction_insert db cid uid t f1 h0]
    rw [applyReaction_delete _ cid uid t f2 _
      (findReaction_after_insert db cid uid t f1 h0) (by simp)]
    show deleteReactionRows (insertReactionRow db.reactions cid uid t f1) cid uid
      = db.reactions
    unfold deleteReactionRows at hdel
    unfold deleteReactionRows insertReactionRow
    rw [List.filter_append, hdel]
    simp
  refine ⟨c1, ?_, ?_, ?_, ?_⟩
  · intro t f1 f2 s
    rw [c1 t f1 f2]
  · intro f1 f2
    rw [applyReaction_insert db cid uid "like" f1 h0]
    rw [applyReaction_update _ cid uid "dislike" f2 _
      (findReaction_after_insert db cid uid "like" f1 h0) (by simp)]
    show updateReactionRows (insertReactionRow db.reactions cid uid "like" f1)
        cid uid "dislike"
      = db.reactions ++
          [{ reaction_id := f1, comment_id := cid, user_id := uid,
             rtype := "dislike" }]
    have hupd : updateReactionRows db.reactions cid uid "dislike" = db.reactions :=
      updateReactionRows_of_none db.reactions cid uid "dislike" h0
    unfold updateReactionRows at hupd
    unfold updateReactionRows insertReactionRow
    rw [List.map_append, hupd]
    simp
  · intro t f1
    exact atMostOne_applyReaction db cid uid t f1 hu
  · intro t1 t2 f1 f2
    exact atMostOne_applyReaction _ cid uid t2 f2
      (atMostOne_applyReaction db cid uid t1 f1 hu)

/-- C5 witness: the theorem applied to a one-comment database with an empty
reaction table. -/
theorem C5_reaction_toggle_idempotent_witness :
    findReaction ([] : List Reaction) 1 "u7" = none
    ∧ atMostOnePerPair ([] : List Reaction)
    ∧ (applyReaction (applyReaction ⟨[], [], []⟩ 1 "u7" "like" 1) 1 "u7" "like" 2).reactions
        = [] := by
  refine ⟨rfl, by unfold atMostOnePerPair; exact List.Pairwise.nil, ?_⟩
  exact (C5_reaction_toggle_idempotent ⟨[], [], []⟩ 1 "u7" rfl
    (by unfold atMostOnePerPair; exact List.Pairwise.nil)).1 "like" 1 2

/-- C1: after the `replytoreply_{post}_{parent}_{tapped}` callback, the
comment row inserted by the user's next message has `parent_comment_id`
equal to the id of the exact comment tapped (`parts[3]`) — for every value
of the immediate-parent field `parts[2]`, so in particular never the thread
root when the tapped comment is not the root.  The inserted row and the
resulting comments table are also pinned exactly. -/
theorem C1_replytoreply_stores_tapped_id (db : DB) (u : UserRow)
    (post_id parent_id tapped_id : Nat) (content ctype : String)
    (file_id : Option String) (new_id ts : Nat)
    (hp : u.waiting_for_post = false) :
    (handleCommentMessage db
        (replytoreplyCallback u post_id parent_id tapped_id)
        content ctype file_id new_id ts).map
        (fun r => r.2.parent_comment_id) = some tapped_id
    ∧ handleCommentMessage db
        (replytoreplyCallback u post_id parent_id tapped_id)
        content ctype file_id new_id ts
      = some
          ({ db with comments := db.comments ++
              [{ comment_id := new_id, post_id := post_id,
                 parent_comment_id := tapped_id, author_id := u.user_id,
                 content := content, ctype := ctype, file_id := file_id,
                 timestamp := ts }] },
           { comment_id := new_id, post_id := post_id,
             parent_comment_id := tapped_id, author_id := u.user_id,
             content := content, ctype := ctype, file_id := file_id,
             timestamp := ts }) := by
  constructor <;>
    · unfold handleCommentMessage replytoreplyCallback insertedParentId
      simp [hp]

/-- C1 witness: a concrete user tapping reply on comment 3 (immediate
parent field 2) of post 7 stores parent 3 on the inserted row. -/
theorem C1_replytoreply_stores_tapped_id_witness :
    (⟨"u1", false, false, none, none⟩ : UserRow).waiting_for_post = false
    ∧ (handleCommentMessage ⟨[], [], []⟩
        (replytoreplyCallback ⟨"u1", false, false, none, none⟩ 7 2 3)
        "hi" "text" none 9 100).map
        (fun r => r.2.parent_comment_id) = some 3 :=
  ⟨rfl,
   (C1_replytoreply_stores_tapped_id ⟨[], [], []⟩
     ⟨"u1", false, false, none, none⟩ 7 2 3 "hi" "text" none 9 100 rfl).1⟩

/-- C4: for every page `p ≥ 1` the page query returns exactly the entries
at ascending-creation-time positions `[(p-1)*5, p*5)` of the post's
top-level comments (with the clamped length `min 5 (N - (p-1)*5)`), the
ordering is ascending by timestamp, and the page total computed as
`(N + 5 - 1) // 5` from the separate count query is the least `k` with
`N ≤ 5*k`, i.e. `⌈N/5⌉`. -/
theorem C4_topLevel_pagination (db : DB) (pid page : Nat) (hp : 1 ≤ page) :
    (∀ i, i < 5 →
      (pageComments db pid page)[i]? =
        (topLevelComments db pid)[(page - 1) * 5 + i]?)
    ∧ (pageComments db pid page).length
        = min 5 (countTopLevel db pid - (page - 1) * 5)
    ∧ (topLevelComments db pid).length = countTopLevel db pid
    ∧ (topLevelComments db pid).Sorted byTime
    ∧ countTopLevel db pid ≤ 5 * totalPages db pid
    ∧ (∀ k, countTopLevel db pid ≤ 5 * k → totalPages db pid ≤ k) := by
  have hlen : (topLevelComments db pid).length = countTopLevel db pid := by
    unfold topLevelComments sortByTime countTopLevel
    exact List.length_insertionSort ..
  refine ⟨?_, ?_, hlen, ?_, ?_, ?_⟩
  · intro i hi
    unfold pageComments
    simp [List.getElem?_take, hi, List.getElem?_drop]
  · unfold pageComments
    simp [hlen]
  · unfold topLevelComments sortByTime
    exact List.sorted_insertionSort byTime _
  · unfold totalPages
    omega
  · intro k hk
    unfold totalPages
    omega

/-- C4 witness: on a post with seven top-level comments, page 2 holds the
two comments at positions 5 and 6. -/
theorem C4_topLevel_pagination_witness :
    (1 ≤ 2 ∧ (pageComments dbSeven 1 2).length
      = min 5 (countTopLevel dbSeven 1 - (2 - 1) * 5))
    ∧ (pageComments dbSeven 1 2)[0]? = (topLevelComments dbSeven 1)[5]? :=
  ⟨⟨by decide, (C4_topLevel_pagination dbSeven 1 2 (by decide)).2.1⟩,
   (C4_topLevel_pagination dbSeven 1 2 (by decide)).1 0 (by decide)⟩

/-- C6: a post that exists but has zero top-level comments renders page 1
as exactly the single "No comments yet." message — no comment, reply or
pagination sends. -/
theorem C6_no_comments_short_circuit (db : DB) (pid n : Nat) (p : Post)
    (hpost : findPost db pid = some p)
    (hzero : countTopLevel db pid = 0) :
    showCommentsPage db pid 1 n = [Sent.noCommentsYet] := by
  have hnil : topLevelFilter db pid = [] := by
    unfold countTopLevel at hzero
    exact List.length_eq_zero.mp hzero
  have hpc : pageComments db pid 1 = [] := by
    unfold pageComments topLevelComments sortByTime
    rw [hnil]
    rfl
  unfold showCommentsPage
  simp [hpost, hpc]

/-- C6 witness: the comment-free post of `dbEmpty`. -/
theorem C6_no_comments_short_circuit_witness :
    (findPost dbEmpty 1 = some (mkP 1 true (some 50) 0)
      ∧ countTopLevel dbEmpty 1 = 0)
    ∧ showCommentsPage dbEmpty 1 1 100 = [Sent.noCommentsYet] :=
  ⟨⟨by decide, by decide⟩,
   C6_no_comments_short_circuit dbEmpty 1 100 (mkP 1 true (some 50) 0)
     (by decide) (by decide)⟩

/-- The per-comment render block never emits the not-found message. -/
theorem renderTopComment_no_notfound (db : DB) (c : Comment) (n : Nat) :
    Sent.postNotFound ∉ (renderTopComment db c n).1 := by
  unfold renderTopComment
  by_cases h3 : 3 < totalRepliesOf db c.comment_id
  · simp [h3]
  · simp [h3]

/-- The top-level render loop never emits the not-found message. -/
theorem renderFold_no_notfound (db : DB) :
    ∀ (cs : List Comment) (acc : List Sent × Nat),
      Sent.postNotFound ∉ acc.1 →
      Sent.postNotFound ∉ (cs.foldl
        (fun acc c =>
          let r := renderTopComment db c acc.2
          (acc.1 ++ r.1, r.2)) acc).1
  | [], _, h => h
  | c :: cs, acc, h => by
    rw [List.foldl_cons]
    refine renderFold_no_notfound db cs _ ?_
    simp only [List.mem_append]
    rintro (hl | hr)
    · exact h hl
    · exact renderTopComment_no_notfound db c acc.2 hr

/-- C7 counterexample: post 1 of `dbUnapproved` exists but is unapproved,
so the claim's precondition fails; yet the renderer neither sends the
not-found message nor aborts — it renders the post's comment. -/
theorem C7_counterexample_unapproved_renders :
    (findPost dbUnapproved 1).isSome = true
    ∧ (findPost dbUnapproved 1).map Post.approved = some false
    ∧ showCommentsPage dbUnapproved 1 1 100 ≠ [Sent.postNotFound]
    ∧ (showCommentsPage dbUnapproved 1 1 100).any
        (fun e => match e with
          | .commentMsg .. => true
          | _ => false) = true :=
  ⟨by decide, by decide, by decide, by decide⟩

/-- C7 amended: the renderer requires only that the post *exists* (the
approval flag is never consulted): a missing post yields exactly the
not-found message and nothing else, and for an existing post the not-found
message is never sent. -/
theorem C7_post_existence_guard (db : DB) (pid page n : Nat) :
    (findPost db pid = none →
      showCommentsPage db pid page n = [Sent.postNotFound])
    ∧ (∀ p, findPost db pid = some p →
        Sent.postNotFound ∉ showCommentsPage db pid page n) := by
  constructor
  · intro h
    unfold showCommentsPage
    simp [h]
  · intro p hp
    unfold showCommentsPage
    rw [hp]
    simp only
    by_cases hc : ((pageComments db pid page).isEmpty && page == 1) = true
    · simp only [hc, if_true, List.mem_singleton]
      exact fun h => Sent.noConfusion h
    · simp only [hc, Bool.false_eq_true, if_false]
      intro h
      simp only [List.mem_append] at h
      rcases h with h | h
      · exact renderFold_no_notfound db (pageComments db pid page) ([], n)
          (by simp) h
      · by_cases hb : (decide (1 < page) || decide (page < totalPages db pid)) = true
        · simp only [hb, if_true, List.mem_singleton] at h
          exact Sent.noConfusion h
        · simp only [hb, Bool.false_eq_true, if_false, List.not_mem_nil] at h

/-- C7 witness: a missing post id aborts with the not-found message; the
existing (unapproved) post of `dbUnapproved` never triggers it. -/
theorem C7_post_existence_guard_witness :
    (findPost dbEmpty 404 = none
      ∧ showCommentsPage dbEmpty 404 1 100 = [Sent.postNotFound])
    ∧ (findPost dbUnapproved 1 = some (mkP 1 false none 1)
      ∧ Sent.postNotFound ∉ showCommentsPage dbUnapproved 1 1 100) :=
  ⟨⟨by decide, (C7_post_existence_guard dbEmpty 404 1 100).1 (by decide)⟩,
   ⟨by decide,
    (C7_post_existence_guard dbUnapproved 1 1 100).2 (mkP 1 false none 1)
      (by decide)⟩⟩

/-- C2 counterexample: in the A/B/C scenario (`dbABC`) page 1 renders only
A and B — B is threaded under A's message, and C (id 3, the reply to B) is
not rendered at all, contradicting the claimed recursive rendering. -/
theorem C2_counterexample_no_recursion :
    showCommentsPage dbABC 1 1 100
      = [Sent.commentMsg (mkC 1 1 0 10) 100 none,
         Sent.commentMsg (mkC 2 1 1 20) 101 (some 100)]
    ∧ (showCommentsPage dbABC 1 1 100).any
        (fun e => match e with
          | .commentMsg c _ _ => c.comment_id == 3
          | _ => false) = false :=
  ⟨by decide, by decide⟩

/-- C2 amended: in the A/B/C scenario the renderer emits A, then B threaded
under A's just-sent message, and stops: `show_comments_page` renders only
the direct replies of each top-level comment, threaded under the top-level
comment's message, and never recurses into replies of replies, so C is not
emitted. -/
theorem C2_direct_replies_only (db : DB) (P : Post) (A B C : Comment)
    (n : Nat)
    (hposts : db.posts = [P]) (hcs : db.comments = [A, B, C])
    (hA : A.post_id = P.post_id) (hA0 : A.parent_comment_id = 0)
    (hBp : B.parent_comment_id = A.comment_id)
    (hCp : C.parent_comment_id = B.comment_id)
    (hAid : A.comment_id ≠ 0) (hBid : B.comment_id ≠ 0)
    (hBA : B.comment_id ≠ A.comment_id) :
    showCommentsPage db P.post_id 1 n
      = [Sent.commentMsg A n none, Sent.commentMsg B (n + 1) (some n)] := by
  have e1 : findPost db P.post_id = some P := by
    unfold findPost
    rw [hposts]
    simp
  have bA : (A.post_id == P.post_id && A.parent_comment_id == 0) = true := by
    simp [hA, hA0]
  have bB : (B.post_id == P.post_id && B.parent_comment_id == 0) = false := by
    rw [hBp]
    simp
    intro _
    exact hAid
  have bC : (C.post_id == P.post_id && C.parent_comment_id == 0) = false := by
    rw [hCp]
    simp
    intro _
    exact hBid
  have etop : topLevelFilter db P.post_id = [A] := by
    unfold topLevelFilter
    rw [hcs]
    simp [List.filter_cons, bA, bB, bC]
  have ecount : countTopLevel db P.post_id = 1 := by
    unfold countTopLevel
    rw [etop]
    rfl
  have epage : pageComments db P.post_id 1 = [A] := by
    unfold pageComments topLevelComments sortByTime
    rw [etop]
    rfl
  have brA : (A.parent_comment_id == A.comment_id) = false := by
    rw [hA0]
    simp
    exact Ne.symm hAid
  have brB : (B.parent_comment_id == A.comment_id) = true := by
    rw [hBp]
    simp
  have brC : (C.parent_comment_id == A.comment_id) = false := by
    rw [hCp]
    simp
    exact hBA
  have erep : repliesFilter db A.comment_id = [B] := by
    unfold repliesFilter
    rw [hcs]
    simp [List.filter_cons, brA, brB, brC]
  have ereps : repliesSorted db A.comment_id = [B] := by
    unfold repliesSorted sortByTime
    rw [erep]
    rfl
  have etot : totalRepliesOf db A.comment_id = 1 := by
    unfold totalRepliesOf
    rw [erep]
    rfl
  have etp : totalPages db P.post_id = 1 := by
    unfold totalPages
    rw [ecount]
  have erender : renderTopComment db A n
      = ([Sent.commentMsg A n none, Sent.commentMsg B (n + 1) (some n)],
         n + 2) := by
    unfold renderTopComment
    rw [ereps, etot]
    norm_num [List.enum]
  unfold showCommentsPage
  simp only [e1]
  simp [epage, erender, etp]

/-- C2 witness: the amended scenario evaluated on `dbABC`. -/
theorem C2_direct_replies_only_witness :
    showCommentsPage dbABC 1 1 100
      = [Sent.commentMsg (mkC 1 1 0 10) 100 none,
         Sent.commentMsg (mkC 2 1 1 20) 101 (some 100)] := by
  have h := C2_direct_replies_only dbABC (mkP 1 true (some 50) 3)
    (mkC 1 1 0 10) (mkC 2 1 1 20) (mkC 3 1 2 30) 100
    rfl rfl rfl rfl rfl rfl (by decide) (by decide) (by decide)
  simpa using h

/-- C3 counterexample: comment 1 of `dbFourReplies` has four replies, yet
page 1 renders only the first three of them, followed by a "Show more
replies" button — the reply list is truncated and paginated, not fetched in
full. -/
theorem C3_counterexample_replies_truncated :
    showCommentsPage dbFourReplies 1 1 100
      = [Sent.commentMsg (mkC 1 1 0 10) 100 none,
         Sent.commentMsg (mkC 2 1 1 20) 101 (some 100),
         Sent.commentMsg (mkC 3 1 1 30) 102 (some 100),
         Sent.commentMsg (mkC 4 1 1 40) 103 (some 100),
         Sent.showMoreBtn 1 1 (some 100)]
    ∧ (showCommentsPage dbFourReplies 1 1 100).any
        (fun e => match e with
          | .commentMsg c _ _ => c.comment_id == 5
          | _ => false) = false :=
  ⟨by decide, by decide⟩

/-- A reply send is recorded with the comment it carries. -/
theorem renderedReplies_pairs (f : Nat × Comment → Nat) (pm : Nat) :
    ∀ l : List (Nat × Comment),
      renderedReplies (l.map (fun p => Sent.commentMsg p.2 (f p) (some pm)))
        = l.map Prod.snd
  | [] => rfl
  | p :: l => by
    have ih := renderedReplies_pairs f pm l
    unfold renderedReplies at ih ⊢
    simp only [List.map_cons, List.filterMap_cons]
    rw [ih]

/-- The leading top-level comment send (threaded under nothing) carries no
reply. -/
theorem renderedReplies_skip_top (c : Comment) (n : Nat) (rest : List Sent) :
    renderedReplies (Sent.commentMsg c n none :: rest) = renderedReplies rest :=
  rfl

/-- `renderedReplies` distributes over concatenation. -/
theorem renderedReplies_append (l1 l2 : List Sent) :
    renderedReplies (l1 ++ l2) = renderedReplies l1 ++ renderedReplies l2 :=
  List.filterMap_append ..

/-- An optional "Show more replies" button carries no reply. -/
theorem renderedReplies_showMore (q : Prop) [Decidable q] (cid r : Nat)
    (pm : Option Nat) :
    renderedReplies (if q then [Sent.showMoreBtn cid r pm] else []) = [] := by
  split <;> rfl

/-- C3 amended: for every top-level comment the renderer fetches the
replies ordered by creation time ascending but renders only the first
three (`LIMIT 3`); the rendered replies are exactly the prefix of length
`min 3 total` of the full ascending reply list, each a genuine child of the
comment; a "Show more replies" button is emitted iff further replies
exist; and the remainder is paginated five per page by
`show_more_replies`. -/
theorem C3_replies_limited_to_three (db : DB) (c : Comment) (n : Nat) :
    renderedReplies (renderTopComment db c n).1
      = (repliesSorted db c.comment_id).take 3
    ∧ (renderedReplies (renderTopComment db c n).1).length
        = min 3 (totalRepliesOf db c.comment_id)
    ∧ (∀ r ∈ renderedReplies (renderTopComment db c n).1,
        r.parent_comment_id = c.comment_id)
    ∧ (renderedReplies (renderTopComment db c n).1).Sorted byTime
    ∧ (Sent.showMoreBtn c.comment_id (totalRepliesOf db c.comment_id - 3)
          (some n) ∈ (renderTopComment db c n).1
        ↔ 3 < totalRepliesOf db c.comment_id)
    ∧ (∀ page m pm,
        renderedReplies (showMoreRepliesPage db c.comment_id page m pm)
          = if (db.comments.find?
                (fun x => x.comment_id == c.comment_id)).isSome then
              ((repliesSorted db c.comment_id).drop ((page - 1) * 5)).take 5
            else []) := by
  have hblock : (renderTopComment db c n).1
      = Sent.commentMsg c n none ::
          (((repliesSorted db c.comment_id).take 3).enum.map
            (fun p => Sent.commentMsg p.2 (n + 1 + p.1) (some n))
          ++ (if 3 < totalRepliesOf db c.comment_id then
                [Sent.showMoreBtn c.comment_id
                  (totalRepliesOf db c.comment_id - 3) (some n)]
              else [])) := rfl
  have hext : renderedReplies (renderTopComment db c n).1
      = (repliesSorted db c.comment_id).take 3 := by
    rw [hblock, renderedReplies_skip_top, renderedReplies_append,
      renderedReplies_pairs, renderedReplies_showMore, List.enum_map_snd,
      List.append_nil]
  have hsorted : (repliesSorted db c.comment_id).Sorted byTime := by
    unfold repliesSorted sortByTime
    exact List.sorted_insertionSort byTime _
  have hlen : (repliesSorted db c.comment_id).length
      = totalRepliesOf db c.comment_id := by
    unfold repliesSorted sortByTime totalRepliesOf
    exact List.length_insertionSort ..
  refine ⟨hext, ?_, ?_, ?_, ?_, ?_⟩
  · rw [hext, List.length_take, hlen]
  · intro r hr
    rw [hext] at hr
    have hr2 : r ∈ repliesSorted db c.comment_id := List.take_subset _ _ hr
    have hr3 : r ∈ repliesFilter db c.comment_id := by
      unfold repliesSorted sortByTime at hr2
      exact (List.perm_insertionSort byTime _).subset hr2
    unfold repliesFilter at hr3
    have := (List.mem_filter.mp hr3).2
    simpa using this
  · rw [hext]
    exact hsorted.sublist (List.take_sublist _ _)
  · unfold renderTopComment
    by_cases h3 : 3 < totalRepliesOf db c.comment_id
    · simp [h3]
    · simp [h3]
  · intro page m pm
    cases hf : db.comments.find? (fun x => x.comment_id == c.comment_id) with
    | none =>
      unfold showMoreRepliesPage
      simp only [hf]
      simp [renderedReplies]
    | some p =>
      unfold showMoreRepliesPage
      simp only [hf]
      rw [renderedReplies_append, renderedReplies_pairs,
        renderedReplies_showMore, List.enum_map_snd, List.append_nil]
      simp

/-- C3 witness: the amended statement evaluated on comment 1 of
`dbFourReplies` (four replies: three rendered, one behind the button). -/
theorem C3_replies_limited_to_three_witness :
    renderedReplies (renderTopComment dbFourReplies (mkC 1 1 0 10) 100).1
      = (repliesSorted dbFourReplies 1).take 3
    ∧ (Sent.showMoreBtn 1 (totalRepliesOf dbFourReplies 1 - 3) (some 100)
        ∈ (renderTopComment dbFourReplies (mkC 1 1 0 10) 100).1
      ↔ 3 < totalRepliesOf dbFourReplies 1) :=
  ⟨(C3_replies_limited_to_three dbFourReplies (mkC 1 1 0 10) 100).1,
   (C3_replies_limited_to_three dbFourReplies (mkC 1 1 0 10) 100).2.2.2.2.1⟩

/-- The comment-count refresh touches no comment or reaction row, keeps the
post list's length, and rewrites each post row either not at all or — for
rows of the given post id, when the post has a channel message — only in
its `comment_count` column. -/
theorem updateChannelCommentCount_spec (db : DB) (pid : Nat) :
    (updateChannelCommentCount db pid).comments = db.comments
    ∧ (updateChannelCommentCount db pid).reactions = db.reactions
    ∧ (updateChannelCommentCount db pid).posts.length = db.posts.length
    ∧ (∀ i, i < db.posts.length →
        (updateChannelCommentCount db pid).posts[i]? = db.posts[i]?
        ∨ ∃ q, db.posts[i]? = some q ∧ q.post_id = pid
            ∧ (updateChannelCommentCount db pid).posts[i]?
                = some { q with comment_count := count_all_comments db pid }) := by
  cases hfp : findPost db pid with
  | none =>
    have he : updateChannelCommentCount db pid = db := by
      unfold updateChannelCommentCount
      simp only [hfp]
    rw [he]
    exact ⟨rfl, rfl, rfl, fun i _ => Or.inl rfl⟩
  | some p =>
    cases hch : p.channel_message_id with
    | none =>
      have he : updateChannelCommentCount db pid = db := by
        unfold updateChannelCommentCount
        simp only [hfp, hch]
      rw [he]
      exact ⟨rfl, rfl, rfl, fun i _ => Or.inl rfl⟩
    | some ch =>
      have he : updateChannelCommentCount db pid
          = { posts := db.posts.map
                (fun q => if q.post_id == pid then
                  { q with comment_count := count_all_comments db pid }
                else q),
              comments := db.comments, reactions := db.reactions } := by
        unfold updateChannelCommentCount
        simp only [hfp, hch]
      rw [he]
      refine ⟨rfl, rfl, by simp, ?_⟩
      intro i hi
      show (db.posts.map _)[i]? = _ ∨ _
      rw [List.getElem?_map]
      cases hq : db.posts[i]? with
      | none => exact Or.inl rfl
      | some q =>
        by_cases hqp : (q.post_id == pid) = true
        · refine Or.inr ⟨q, rfl, by simpa using hqp, ?_⟩
          rw [Option.map_some']
          rw [if_pos hqp]
        · refine Or.inl ?_
          rw [Option.map_some']
          rw [if_neg hqp]

/-- C8 counterexample: deleting comment 1 of `dbDelete` (author "a1")
removes its row and reaction and leaves the child reply 2 dangling, but it
also rewrites the owning post's row: the stored `comment_count` drops from
2 to 0 via `update_channel_post_comment_count`, so a post row other than
the deleted comment's row *is* modified. -/
theorem C8_counterexample_post_row_updated :
    (deleteComment dbDelete 1 "a1").comments = [mkC 2 1 1 20]
    ∧ (deleteComment dbDelete 1 "a1").reactions
        = [{ reaction_id := 2, comment_id := 2, user_id := "u9",
             rtype := "like" }]
    ∧ (deleteComment dbDelete 1 "a1").posts ≠ dbDelete.posts
    ∧ (deleteComment dbDelete 1 "a1").posts = [mkP 1 true (some 50) 0] :=
  ⟨by decide, by decide, by decide, by decide⟩

/-- C8 amended: deletion happens only for the author; it removes exactly
the comment's row and the reactions referencing it; every other comment —
in particular each child reply, which keeps its now-dangling
`parent_comment_id` — and every other reaction survives verbatim; and the
only other change is to posts: each post row is either untouched or, when
it is the owning post (with a channel message), updated only in its
`comment_count` column. -/
theorem C8_delete_orphans_replies (db : DB) (cid : Nat) (uid : String)
    (c : Comment)
    (hfind : db.comments.find? (fun x => x.comment_id == cid) = some c) :
    (c.author_id ≠ uid → deleteComment db cid uid = db)
    ∧ (c.author_id = uid →
        (deleteComment db cid uid).comments
            = db.comments.filter (fun x => !(x.comment_id == cid))
        ∧ (deleteComment db cid uid).reactions
            = db.reactions.filter (fun r => !(r.comment_id == cid))
        ∧ (∀ x ∈ db.comments, x.comment_id ≠ cid →
            x ∈ (deleteComment db cid uid).comments)
        ∧ (∀ r ∈ db.reactions, r.comment_id ≠ cid →
            r ∈ (deleteComment db cid uid).reactions)
        ∧ (deleteComment db cid uid).posts.length = db.posts.length
        ∧ (∀ i, i < db.posts.length →
            (deleteComment db cid uid).posts[i]? = db.posts[i]?
            ∨ ∃ q, db.posts[i]? = some q ∧ q.post_id = c.post_id
                ∧ (deleteComment db cid uid).posts[i]?
                    = some { q with comment_count :=
                        count_all_comments (deleteCommentRows db cid) c.post_id })) := by
  constructor
  · intro hne
    unfold deleteComment
    rw [hfind]
    have : (c.author_id == uid) = false := by simpa using hne
    simp [this]
  · intro heq
    have hdel : deleteComment db cid uid
        = updateChannelCommentCount (deleteCommentRows db cid) c.post_id := by
      unfold deleteComment
      rw [hfind]
      have : (c.author_id == uid) = true := by simpa using heq
      simp [this]
    have hspec := updateChannelCommentCount_spec (deleteCommentRows db cid) c.post_id
    have hcs : (deleteCommentRows db cid).comments
        = db.comments.filter (fun x => !(x.comment_id == cid)) := rfl
    have hrs : (deleteCommentRows db cid).reactions
        = db.reactions.filter (fun r => !(r.comment_id == cid)) := rfl
    have hps : (deleteCommentRows db cid).posts = db.posts := rfl
    refine ⟨?_, ?_, ?_, ?_, ?_, ?_⟩
    · rw [hdel, hspec.1, hcs]
    · rw [hdel, hspec.2.1, hrs]
    · intro x hx hxid
      rw [hdel, hspec.1, hcs]
      refine List.mem_filter.mpr ⟨hx, ?_⟩
      simpa using hxid
    · intro r hr hrid
      rw [hdel, hspec.2.1, hrs]
      refine List.mem_filter.mpr ⟨hr, ?_⟩
      simpa using hrid
    · rw [hdel, hspec.2.2.1, hps]
    · intro i hi
      rw [hdel]
      have := hspec.2.2.2 i (by rw [hps]; exact hi)
      rw [hps] at this
      exact this

/-- Roots plus strict descendants account for every comment of a forest. -/
theorem rootsLen : ∀ ts : CForest,
    (forestRoots ts).length + subtreeSizes ts = (forestComments ts).length
  | .nil => rfl
  | .cons (.node c cts) ts => by
    have ih := rootsLen ts
    simp only [forestRoots, subtreeSizes, forestComments, treeComments,
      List.length_cons, List.length_append]
    omega

mutual

/-- A tree is at most as high as it has nodes. -/
theorem treeHeight_le : ∀ t : CTree, treeHeight t ≤ (treeComments t).length
  | .node c ts => by
    have ih := forestHeight_le ts
    simp only [treeHeight, treeComments, List.length_cons]
    omega

/-- A forest is at most as high as it has nodes. -/
theorem forestHeight_le : ∀ ts : CForest,
    forestHeight ts ≤ (forestComments ts).length
  | .nil => by simp [forestHeight, forestComments]
  | .cons t ts => by
    have i1 := treeHeight_le t
    have i2 := forestHeight_le ts
    simp only [forestHeight, forestComments, List.length_append]
    omega

end

mutual

/-- The recursive `count_replies` call on a tree root returns exactly the
number of strict descendants of that root, for any fuel at least the tree's
height. -/
theorem countRepliesFuel_tree (cs : List Comment) :
    ∀ (t : CTree) (fuel : Nat), wfTree cs t = true → treeHeight t ≤ fuel →
      countRepliesFuel cs fuel (rootOf t).comment_id
        = (forestComments (childrenForest t)).length
  | .node c ts, fuel, hwf, hh => by
    have hparts : childrenOf cs c.comment_id = forestRoots ts
        ∧ wfForest cs ts = true := by
      have := hwf
      unfold wfTree at this
      simpa [Bool.and_eq_true] using this
    cases fuel with
    | zero =>
      exfalso
      simp only [treeHeight] at hh
      omega
    | succ f =>
      have hhf : forestHeight ts ≤ f := by
        simp only [treeHeight] at hh
        omega
      show countRepliesFuel cs (f + 1) c.comment_id = (forestComments ts).length
      simp only [countRepliesFuel]
      rw [hparts.1]
      rw [countRepliesFuel_forest cs ts f (forestRoots ts).length hparts.2 hhf]
      exact rootsLen ts

/-- Folding the recursive `count_replies` over a well-formed forest's roots
adds exactly the forest's total number of strict descendants. -/
theorem countRepliesFuel_forest (cs : List Comment) :
    ∀ (ts : CForest) (f init : Nat), wfForest cs ts = true →
      forestHeight ts ≤ f →
      (forestRoots ts).foldl
          (fun total c => total + countRepliesFuel cs f c.comment_id) init
        = init + subtreeSizes ts
  | .nil, f, init, _, _ => by simp [forestRoots, subtreeSizes]
  | .cons (.node c cts) ts, f, init, hwf, hh => by
    have hparts : wfTree cs (.node c cts) = true ∧ wfForest cs ts = true := by
      have := hwf
      unfold wfForest at this
      simpa [Bool.and_eq_true] using this
    have hht : treeHeight (.node c cts) ≤ f := by
      simp only [forestHeight] at hh
      omega
    have hhf : forestHeight ts ≤ f := by
      simp only [forestHeight] at hh
      omega
    have hc := countRepliesFuel_tree cs (.node c cts) f hparts.1 hht
    simp only [rootOf, childrenForest] at hc
    simp only [forestRoots, List.foldl_cons]
    rw [hc]
    rw [countRepliesFuel_forest cs ts f
      (init + (forestComments cts).length) hparts.2 hhf]
    simp only [subtreeSizes]
    omega

end

/-- `count_all_comments` with sufficient fuel counts every node of a
well-formed forest covering the post's top-level comments. -/
theorem countAllFuel_forest (db : DB) (pid : Nat) (TS : CForest) (fuel : Nat)
    (hroots : topLevelFilter db pid = forestRoots TS)
    (hwf : wfForest db.comments TS = true)
    (hh : forestHeight TS ≤ fuel) :
    countAllFuel fuel db pid = (forestComments TS).length := by
  unfold countAllFuel
  simp only [hroots]
  rw [countRepliesFuel_forest db.comments TS fuel (forestRoots TS).length
    hwf hh]
  exact rootsLen TS

/-- C10: whenever the post's comments form a finite acyclic forest under
the `parent_comment_id` relation (witnessed by a `CForest` whose node set
is exactly the post's comment set), `count_all_comments` returns the total
number of comments on the post across *all* nesting depths, and the
recursion is saturated: every fuel of at least the table size — hence the
unbounded Python recursion — yields that same total. -/
theorem C10_count_all_comments_total (db : DB) (pid : Nat) (TS : CForest)
    (hroots : topLevelFilter db pid = forestRoots TS)
    (hwf : wfForest db.comments TS = true)
    (hperm : (forestComments TS).Perm
      (db.comments.filter (fun c => c.post_id == pid))) :
    count_all_comments db pid
        = (db.comments.filter (fun c => c.post_id == pid)).length
    ∧ ∀ fuel, db.comments.length ≤ fuel →
        countAllFuel fuel db pid
          = (db.comments.filter (fun c => c.post_id == pid)).length := by
  have hlen : (forestComments TS).length
      = (db.comments.filter (fun c => c.post_id == pid)).length :=
    hperm.length_eq
  have hheight : forestHeight TS ≤ db.comments.length := by
    have h1 := forestHeight_le TS
    have h2 : (db.comments.filter (fun c => c.post_id == pid)).length
        ≤ db.comments.length := List.length_filter_le _ _
    omega
  constructor
  · unfold count_all_comments
    rw [countAllFuel_forest db pid TS db.comments.length hroots hwf hheight,
      hlen]
  · intro fuel hf
    rw [countAllFuel_forest db pid TS fuel hroots hwf (le_trans hheight hf),
      hlen]

/-- C10 witness: `dbDeep` has a reply chain of depth 4 (deeper than the
renderer ever displays) plus a second top-level comment; the counter
returns all 5 comments. -/
theorem C10_count_all_comments_total_witness :
    (topLevelFilter dbDeep 1 = forestRoots forestDeep
      ∧ wfForest dbDeep.comments forestDeep = true
      ∧ (forestComments forestDeep).Perm
          (dbDeep.comments.filter (fun c => c.post_id == 1)))
    ∧ count_all_comments dbDeep 1
        = (dbDeep.comments.filter (fun c => c.post_id == 1)).length
    ∧ count_all_comments dbDeep 1 = 5 := by
  refine ⟨⟨by decide, by decide, by decide⟩, ?_, by decide⟩
  exact (C10_count_all_comments_total dbDeep 1 forestDeep (by decide)
    (by decide) (by decide)).1

/-- C8 witness: the amended statement evaluated on `dbDelete`. -/
theorem C8_delete_orphans_replies_witness :
    ((mkC 1 1 0 10).author_id = "a1"
      ∧ dbDelete.comments.find? (fun x => x.comment_id == 1)
          = some (mkC 1 1 0 10))
    ∧ (deleteComment dbDelete 1 "a1").comments
        = dbDelete.comments.filter (fun x => !(x.comment_id == 1)) :=
  ⟨⟨by decide, by decide⟩,
   ((C8_delete_orphans_replies dbDelete 1 "a1" (mkC 1 1 0 10)
      (by decide)).2 (by decide)).1⟩

end TestBot
